import Mathlib

/-!
Shallow embedding of the `searchpubmed` repository core, with theorems
checking the natural-language specification against it.

Part 1 models `src/searchpubmed/query_builder.py` (present in the sources):
the synonym tables, the two successive definitions of `build_query`
(the second shadows the first and is the exported one), and their helpers.
Python strings are modelled as Lean `String`; the Python string methods used
(`str.replace`, `str.strip`, `str.rstrip`, `str.split('[')[0]`,
`str.startswith`, `str.endswith`, membership of `'-'`) are modelled over
`List Char` below.
-/

/-- Decides whether `pat` is a leading run of `l`
(model of Python `str.startswith` at an offset). -/
def startsWithL : List Char → List Char → Bool
  | [], _ => true
  | _ :: _, [] => false
  | p :: ps, c :: cs => p == c && startsWithL ps cs

/-- Decides whether `pat` occurs contiguously anywhere in `l`
(model of Python substring membership `pat in s`). -/
def hasSubstr (pat : List Char) : List Char → Bool
  | [] => startsWithL pat []
  | c :: cs => startsWithL pat (c :: cs) || hasSubstr pat cs

/-- The pattern `"Merativ"` that the exported `build_query` replaces. -/
def merativChars : List Char := "Merativ".toList

/-- Model of Python `term.replace("Merativ", "Merative")`: replaces every
left-most non-overlapping occurrence. -/
def replaceMerativ (l : List Char) : List Char :=
  match l with
  | [] => []
  | c :: cs =>
    if startsWithL merativChars (c :: cs) then
      "Merative".toList ++ replaceMerativ (cs.drop 6)
    else
      c :: replaceMerativ cs
termination_by l.length
decreasing_by
  · simp [List.length_drop]
    omega
  · simp

/-- Model of Python `str.strip(ch)`: removes every leading and trailing
occurrence of `ch`. -/
def pyStrip (ch : Char) (l : List Char) : List Char :=
  ((l.dropWhile (fun c => c == ch)).reverse.dropWhile (fun c => c == ch)).reverse

/-- Model of Python `str.rstrip(ch)`: removes every trailing occurrence of `ch`. -/
def pyRstrip (ch : Char) (l : List Char) : List Char :=
  (l.reverse.dropWhile (fun c => c == ch)).reverse

/-- The `_normalise` helper of the first `build_query` definition
(query_builder.py lines 180-184): un-quote hyphenated MeSH terms. -/
def normaliseV1 (term : String) : String :=
  let l := term.toList
  if l.head? == some '"' && l.getLast? == some '"' && ((l.drop 1).dropLast.contains '-') then
    String.mk (pyStrip '"' l)
  else term

/-- The `_normalise` helper of the second (exported) `build_query` definition
(query_builder.py lines 256-260): first replace `Merativ` with `Merative`,
then un-quote hyphenated MeSH terms. -/
def normaliseV2 (term : String) : String :=
  let l := replaceMerativ term.toList
  if l.head? == some '"' && l.getLast? == some '"' && ((l.drop 1).dropLast.contains '-') then
    String.mk (pyStrip '"' l)
  else String.mk l

/-- The `_DATA_SOURCE_SYNONYMS` table of query_builder.py. -/
def DATA_SOURCE_SYNONYMS : List (String × List String) := [
  ("ehr", [
    "\"Electronic Health Records\"[MeSH]",
    "\"Medical Records Systems, Computerized\"[MeSH]",
    "\"Routinely Collected Health Data\"[MeSH]",
    "\"EHR\"[TIAB]",
    "\"EMR\"[TIAB]",
    "\"electronic health record\"[TIAB]",
    "\"electronic medical record\"[TIAB]"]),
  ("claims", [
    "\"Insurance Claim Review\"[MeSH]",
    "\"Insurance Claim Reporting\"[MeSH]",
    "\"claims data\"[TIAB]",
    "\"administrative data\"[TIAB]",
    "\"insurance claims\"[TIAB]"]),
  ("registry", [
    "\"Registries\"[MeSH]",
    "registry[TIAB]",
    "registry-based[TIAB]"]),
  ("realworld", [
    "\"Databases, Factual\"[MeSH]",
    "\"real-world data\"[TIAB]",
    "\"real-world evidence\"[TIAB]",
    "\"real world data\"[TIAB]",
    "\"real world evidence\"[TIAB]"]),
  ("named", [
    "\"SEER\"[TIAB]",
    "\"NHANES\"[TIAB]",
    "\"CPRD\"[TIAB]",
    "\"MarketScan\"[TIAB]",
    "\"Optum\"[TIAB]",
    "\"Truven\"[TIAB]",
    "\"IQVIA\"[TIAB]",
    "\"PharMetrics\"[TIAB]",
    "\"Symphony Health\"[TIAB]",
    "\"Premier Healthcare\"[TIAB]",
    "\"Medicare\"[TIAB]",
    "\"Medicaid\"[TIAB]",
    "\"All-Payer\"[TIAB]",
    "\"All Payer\"[TIAB]",
    "\"TriNetX\"[TIAB]",
    "\"Cerner\"[TIAB]",
    "\"Komodo\"[TIAB]",
    "\"Kaiser\"[TIAB]",
    "\"Explorys\"[TIAB]",
    "\"The Health Improvement Network\"[TIAB]",
    "\"Vizient\"[TIAB]",
    "\"HealthVerity\"[TIAB]",
    "\"Datavant\"[TIAB]",
    "\"Merative\"[TIAB]"])]

/-- The `_DESIGN_SYNONYMS` table of query_builder.py. -/
def DESIGN_SYNONYMS : List (String × List String) := [
  ("observational", [
    "\"Observational Study\"[PT]",
    "\"Observational Studies as Topic\"[MeSH]",
    "observational[TIAB]",
    "\"observational study\"[TIAB]",
    "observational stud*[TIAB]"]),
  ("retrospective", [
    "\"Retrospective Studies\"[MeSH]",
    "retrospective[TIAB]",
    "\"retrospective study\"[TIAB]"]),
  ("secondary", [
    "\"Secondary Data Analysis\"[PT]",
    "\"secondary analysis\"[TIAB]",
    "\"secondary data analysis\"[TIAB]"]),
  ("cohort", [
    "\"Cohort Studies\"[MeSH]",
    "cohort[TIAB]",
    "\"cohort study\"[TIAB]",
    "cohort stud*[TIAB]"]),
  ("case_control", [
    "\"Case-Control Studies\"[MeSH]",
    "\"case-control\"[TIAB]",
    "\"case control\"[TIAB]"]),
  ("cross_sectional", [
    "\"Cross-Sectional Studies\"[MeSH]",
    "\"cross-sectional\"[TIAB]",
    "\"cross sectional\"[TIAB]"]),
  ("research_group", [
    "\"Health Services Research\"[MeSH]",
    "\"Outcome Assessment, Health Care\"[MeSH]",
    "\"Comparative Effectiveness Research\"[MeSH]"]),
  ("prospective", [
    "\"Prospective Studies\"[MeSH]",
    "prospective[TIAB]"]),
  ("longitudinal", [
    "\"Longitudinal Studies\"[MeSH]",
    "\"longitudinal study\"[TIAB]"])]

/-- The `_EXCLUDE_CT_TERMS` tuple of query_builder.py (the duplicate entry is
present in the source and kept). -/
def EXCLUDE_CT_TERMS : List String := [
  "\"Clinical Trials as Topic\"[MeSH]",
  "\"Controlled Clinical Trials as Topic\"[MeSH]",
  "\"Controlled Clinical Trials as Topic\"[MeSH]",
  "\"Randomized Controlled Trial\"[PT]",
  "\"Clinical Trial\"[PT]"]

/-- Modelled from the spec: the body of the `QueryOptions` dataclass is not
present under src (the class declaration in query_builder.py is truncated at
line 172); its fields are reconstructed from `build_query`'s uses and the five
`STRATEGY*_OPTS` preset constructions. Years are numeric-or-unset; `None` and
`0` are both Python-falsy, modelled by `none` and `some 0`. -/
structure QueryOptions where
  data_sources : List String := []
  design_terms : List String := []
  proximity_within : Option Nat := none
  restrict_english : Bool := false
  start_year : Option Nat := none
  end_year : Option Nat := none
  exclude_clinical_trials : Bool := false

/-- Modelled from the spec: `QueryOptions._lookup` is not present under src;
per the spec it reads synonym clauses from the static tables. Each selected
key is mapped to its synonym list and the lists are concatenated in order;
keys absent from the table contribute nothing. -/
def lookupSyn (keys : List String) (table : List (String × List String)) : List String :=
  keys.flatMap (fun k => (((table.find? (fun p => p.1 == k)).map Prod.snd)).getD [])

/-- The `_apply_proximity` helper of query_builder.py (lines 231-238). -/
def apply_proximity (designs sources : List String) (N : Nat) : List String :=
  designs.flatMap (fun d =>
    let d_clean := String.mk (pyStrip '"' ((pyRstrip ']' d.toList).takeWhile (fun c => c != '[')))
    sources.map (fun s =>
      let s_clean := String.mk (pyStrip '"' ((pyRstrip ']' s.toList).takeWhile (fun c => c != '[')))
      "\"" ++ d_clean ++ "\" " ++ toString N ++ " \"" ++ s_clean ++ "\"[TIAB]"))

/-- Python truthiness of an optional year (`None` and `0` are falsy). -/
def truthyYear : Option Nat → Bool
  | none => false
  | some n => n != 0

/-- Model of Python `opts.start_year or default`: the year when truthy,
else the default. -/
def yearOrDefault : Option Nat → Nat → Nat
  | none, d => d
  | some n, d => if n = 0 then d else n

/-- The `english[lang]` filter appended when `restrict_english` is set
(query_builder.py lines 281-282). -/
def englishFilterList (restrict : Bool) : List String :=
  if restrict then ["english[lang]"] else []

/-- The date-range filter appended when `start_year` or `end_year` is truthy
(query_builder.py lines 284-287): missing bounds default to 1800 and 3000. -/
def dateFilterList (startY endY : Option Nat) : List String :=
  if truthyYear startY || truthyYear endY then
    ["(\"" ++ toString (yearOrDefault startY 1800) ++ "\"[dp] : \"" ++
      toString (yearOrDefault endY 3000) ++ "\"[dp])"]
  else []

/-- The clinical-trial exclusion filter (query_builder.py lines 289-290). -/
def ctFilterList (exclude : Bool) : List String :=
  if exclude then ["NOT (" ++ " OR ".intercalate EXCLUDE_CT_TERMS ++ ")"] else []

/-- The core block of `build_query` (identical in both definitions): the
proximity disjunction when `proximity_within` is set, else the parenthesised
`(sources) AND (designs)` intersection. -/
def coreBlock (design_clauses source_clauses : List String) (prox : Option Nat) : String :=
  match prox with
  | some n => "(" ++ " OR ".intercalate (apply_proximity design_clauses source_clauses n) ++ ")"
  | none =>
    "( (" ++ " OR ".intercalate source_clauses ++ ") AND (" ++
      " OR ".intercalate design_clauses ++ ") )"

/-- The query assembly shared verbatim by both `build_query` definitions:
core block, then the optional filters, joined with `" AND "`. -/
def assembleQuery (design_clauses source_clauses : List String) (opts : QueryOptions) : String :=
  " AND ".intercalate
    (coreBlock design_clauses source_clauses opts.proximity_within ::
      (englishFilterList opts.restrict_english ++
        dateFilterList opts.start_year opts.end_year ++
        ctFilterList opts.exclude_clinical_trials))

/-- The first `build_query` definition (query_builder.py lines 175-224),
later shadowed. Its body differs from the exported one only in `_normalise`. -/
def build_query_first (opts : QueryOptions) : String :=
  assembleQuery
    ((lookupSyn opts.design_terms DESIGN_SYNONYMS).map normaliseV1)
    ((lookupSyn opts.data_sources DATA_SOURCE_SYNONYMS).map normaliseV1)
    opts

/-- The second, exported `build_query` definition (query_builder.py
lines 245-293). -/
def build_query (opts : QueryOptions) : String :=
  assembleQuery
    ((lookupSyn opts.design_terms DESIGN_SYNONYMS).map normaliseV2)
    ((lookupSyn opts.data_sources DATA_SOURCE_SYNONYMS).map normaliseV2)
    opts

/-!
Part 2 models `searchpubmed/pubmed.py`. That file is not present under src
(only its tests and the package re-export list are), so the definitions below
are modelled from the spec, §4.5 (StructuralChunkExtractor), §4.2
(IdentifierResolver batching), §4.3 (MetadataFetcher), §4.4 (FullTextFetcher),
§4.1 (RateLimitedTransport) and §3 (ResultRow), with the tests in
src/tests pinning concrete shapes (JATS tag names, context keys, row fields).
-/

/-- An XML tree: the structured-document input of the chunk extractor.
The extractor receives serialized XML; the embedding works on the parsed tree. -/
inductive Xml where
  | elem : String → List Xml → Xml
  | text : String → Xml

/-- Structural role of an emitted chunk (spec §3, TextChunk.context.role). -/
inductive ChunkRole where
  | title
  | paragraph
  | table_cell
deriving DecidableEq

/-- Context attached to an emitted chunk. `sec` models the `"section"` key and
`parent_sec` the `"parent_sec"` key of the context dict asserted by
tests/test_jats_chunks.py. -/
structure ChunkCtx where
  sec : Option String
  parent_sec : Option String
  role : ChunkRole
deriving DecidableEq

/-- One emitted chunk: trimmed text plus its structural context. -/
abbrev Chunk := String × ChunkCtx

/-- Whitespace trimming over characters (model of Python `str.strip()`),
kept kernel-computable unlike `String.trim`. -/
def trimChars (l : List Char) : List Char :=
  ((l.dropWhile Char.isWhitespace).reverse.dropWhile Char.isWhitespace).reverse

/-- Model of Python `str.strip()` on a `String`. -/
def trimS (s : String) : String := String.mk (trimChars s.toList)

/-- Concatenated immediate text children of an element (the plain text content
of leaf-like elements such as `<title>`, `<p>`, `<td>`). -/
def immediateText (children : List Xml) : String :=
  String.join (children.map (fun x => match x with | .text s => s | _ => ""))

/-- Modelled from the spec: context of an emitted chunk from the stack of
enclosing section titles — `section` is the top of the stack or none,
`parent_sec` the next from top or none (spec §4.5). -/
def ctxOf (stack : List String) (r : ChunkRole) : ChunkCtx :=
  { sec := stack.head?, parent_sec := (stack.drop 1).head?, role := r }

/-- Title of a section: text of its first `<title>` child, if any. -/
def secTitle (children : List Xml) : Option String :=
  match children.find? (fun x => match x with | .elem "title" _ => true | _ => false) with
  | some (.elem _ tcs) => some (trimS (immediateText tcs))
  | _ => none

mutual
/-- Texts of every element named `tag` in a subtree (used for `<td>` table
cells and the front-matter `<article-title>`); does not descend into a match. -/
def collectTag (tag : String) : Xml → List String
  | .text _ => []
  | .elem t children =>
    if t == tag then [trimS (immediateText children)] else collectTagList tag children

/-- List version of `collectTag`. -/
def collectTagList (tag : String) : List Xml → List String
  | [] => []
  | x :: xs => collectTag tag x ++ collectTagList tag xs
end

mutual
/-- Modelled from the spec: the depth-first pre-order walk of
`get_jats_text_chunks` (spec §4.5). On a titled `<sec>`: emit the title with
the context before pushing, push, walk the children. On `<p>`: emit the
trimmed text as a paragraph when its length reaches `minLen`. On
`<table-wrap>`: emit the `<td>` cell texts when table cells are enabled, else
skip the table entirely. Other elements are traversed transparently. -/
def walkNode (minLen : Nat) (tables : Bool) (stack : List String) : Xml → List Chunk
  | .text _ => []
  | .elem "sec" children =>
    match secTitle children with
    | some t => (t, ctxOf stack .title) :: walkList minLen tables (t :: stack) children
    | none => walkList minLen tables stack children
  | .elem "title" _ => []
  | .elem "p" children =>
    let t := trimS (immediateText children)
    if minLen ≤ t.length then [(t, ctxOf stack .paragraph)] else []
  | .elem "table-wrap" children =>
    if tables then
      (collectTagList "td" children).map (fun t => (t, ctxOf stack .table_cell))
    else []
  | .elem _ children => walkList minLen tables stack children

/-- List version of `walkNode`: children are walked in document order. -/
def walkList (minLen : Nat) (tables : Bool) (stack : List String) : List Xml → List Chunk
  | [] => []
  | x :: xs => walkNode minLen tables stack x ++ walkList minLen tables stack xs
end

/-- Error raised when the input is not recognizable as a JATS article
(spec §4.5 and §7, `UnsupportedDocumentError`; the test observes a
`ValueError`). -/
inductive JatsError where
  | unsupportedDocument : String → JatsError
deriving DecidableEq

/-- Whether a node is a `<body>` element. -/
def isBodyElem : Xml → Bool
  | .elem "body" _ => true
  | _ => false

/-- Whether the document root has a `<body>` child — the schema guard of the
chunk extractor (spec §4.5: presence of a body/section container). -/
def hasBodyElem : Xml → Bool
  | .elem _ children => children.any isBodyElem
  | .text _ => false

/-- Children of the root `<body>` element, when the guard holds. -/
def bodyOf : Xml → Option (List Xml)
  | .elem _ children =>
    match children.find? isBodyElem with
    | some (.elem _ bs) => some bs
    | _ => none
  | .text _ => none

/-- Front-matter chunks: the `<article-title>` texts inside `<front>`,
emitted with the empty context and role title. -/
def frontTitleChunks (doc : Xml) : List Chunk :=
  match doc with
  | .elem _ children =>
    (collectTagList "article-title"
        (children.filter (fun x => match x with | .elem "front" _ => true | _ => false))).map
      (fun t => (t, ctxOf [] ChunkRole.title))
  | .text _ => []

/-- Modelled from the spec: `get_jats_text_chunks` of searchpubmed/pubmed.py
(absent from src). Rejects documents without a `<body>` container with
`UnsupportedDocumentError`, otherwise emits the front-matter article title
followed by the document-order walk of the body (spec §4.5, pinned by
tests/test_jats_chunks.py). -/
def get_jats_text_chunks (doc : Xml) (min_len : Nat) (include_table_cells : Bool) :
    Except JatsError (List Chunk) :=
  match bodyOf doc with
  | none => .error (.unsupportedDocument "document has no body element")
  | some bodyChildren =>
    .ok (frontTitleChunks doc ++ walkList min_len include_table_cells [] bodyChildren)

/-- The SAMPLE_JATS document of tests/test_jats_chunks.py restricted to the
claim C1 input: front article-title `Main`, one section `Intro` with one
paragraph. -/
def sampleDocC1 : Xml :=
  .elem "article" [
    .elem "front" [.elem "title-group" [.elem "article-title" [.text "Main"]]],
    .elem "body" [
      .elem "sec" [.elem "title" [.text "Intro"], .elem "p" [.text "Intro text."]]]]

/-- The full SAMPLE_JATS document of tests/test_jats_chunks.py. -/
def sampleJats : Xml :=
  .elem "article" [
    .elem "front" [.elem "title-group" [.elem "article-title" [.text "Main"]]],
    .elem "body" [
      .elem "sec" [.elem "title" [.text "Intro"], .elem "p" [.text "Intro text."]],
      .elem "sec" [.elem "title" [.text "Results"],
        .elem "sec" [.elem "title" [.text "Sub"], .elem "p" [.text "Sub text."]]],
      .elem "table-wrap" [.elem "tbody" [.elem "tr" [.elem "td" [.text "Cell1"]]]]]]

/-- The NON_JATS document of tests/test_jats_chunks.py: a PubmedArticle. -/
def nonJatsDoc : Xml :=
  .elem "PubmedArticle" [.elem "MedlineCitation" []]

/-- Modelled from the spec: the id-batching shared by `cross_reference`
(`map_pmids_to_pmcids`) and the metadata fetch (spec §4.2-§4.3): consecutive
batches of at most `limit` ids, in order. -/
def batches (limit : Nat) (l : List α) : List (List α) :=
  match l with
  | [] => []
  | x :: xs => (x :: xs.take (limit - 1)) :: batches limit (xs.drop (limit - 1))
termination_by l.length
decreasing_by
  simp [List.length_drop]
  omega

/-- A bibliographic record (spec §3, MetadataRecord); missing fields default
rather than raise. -/
structure MetadataRecord where
  pmid : String
  title : String
  journal : Option String
  year : Option Nat
  abstract : Option String
  authors : List String
deriving DecidableEq

/-- Modelled from the spec: `map_pmids_to_pmcids` / cross_reference
(spec §4.2): one remote call per batch, the per-batch partial maps merged in
order. The remote is injected as the per-batch response map. -/
def cross_reference (limit : Nat) (remote : List String → List (String × String))
    (ids : List String) : List (String × String) :=
  ((batches limit ids).map remote).flatten

/-- Modelled from the spec: the metadata fetch (spec §4.3) batches ids the
same way as `cross_reference` and merges per-batch record maps. -/
def fetch_metadata (limit : Nat) (remote : List String → List (String × MetadataRecord))
    (ids : List String) : List (String × MetadataRecord) :=
  ((batches limit ids).map remote).flatten

/-- Result of one remote document request, as seen by the full-text fetcher. -/
inductive RemoteResult where
  | ok : String → RemoteResult
  | notFound
  | fetchError
deriving DecidableEq

/-- Reason a full text is unavailable (spec §4.4 step 3: callers must be able
to tell these apart). -/
inductive UnavailableReason where
  | notFound
  | fetchError
  | emptyContent
deriving DecidableEq

/-- Outcome of one full-text attempt (spec §3, FullTextOutcome). -/
inductive FullTextOutcome where
  | structuredXmlContent : String → FullTextOutcome
  | renderedHtmlText : String → FullTextOutcome
  | unavailable : UnavailableReason → FullTextOutcome
deriving DecidableEq

/-- Whether an outcome is the Unavailable variant. -/
def FullTextOutcome.isUnavailable : FullTextOutcome → Bool
  | .unavailable _ => true
  | _ => false

/-- Whether an outcome carries content (structured XML or rendered HTML). -/
def FullTextOutcome.isContent : FullTextOutcome → Bool
  | .structuredXmlContent _ => true
  | .renderedHtmlText _ => true
  | .unavailable _ => false

/-- The injectable remote used by the full-text fetcher: structured-XML and
rendered-HTML endpoints, a well-formedness check and visible-text extraction. -/
structure RemoteFullText where
  xml : String → RemoteResult
  html : String → RemoteResult
  wellFormed : String → Bool
  visibleText : String → String

/-- Modelled from the spec: `FullTextFetcher.fetch_one` (spec §4.4). Try
structured XML; when well-formed and non-empty return it. Else try the
rendered document; when non-empty return its visible text. Else return
Unavailable with a reason telling not-found, fetch-error and empty apart.
Total by construction: failure is data, never an exception. -/
def fetch_one (r : RemoteFullText) (sid : String) : FullTextOutcome :=
  let xmlBody : Option String :=
    match r.xml sid with
    | .ok body => if r.wellFormed body && !(body == "") then some body else none
    | _ => none
  match xmlBody with
  | some body => .structuredXmlContent body
  | none =>
    match r.html sid with
    | .ok body =>
      if body == "" then .unavailable .emptyContent
      else .renderedHtmlText (r.visibleText body)
    | .notFound => .unavailable .notFound
    | .fetchError => .unavailable .fetchError

/-- Modelled from the spec: `fetch_many` applies `fetch_one` to every id and
returns one outcome per attempted id (spec §4.4). -/
def fetch_many (r : RemoteFullText) (ids : List String) : List (String × FullTextOutcome) :=
  ids.map (fun sid => (sid, fetch_one r sid))

/-- One row of the orchestrator output (spec §3, ResultRow). -/
structure ResultRow where
  pmid : String
  pmcid : Option String
  meta : MetadataRecord
  chunks : List Chunk
deriving DecidableEq

/-- Modelled from the spec: the row the orchestrator builds for one resolved
PrimaryId (spec §3 and §9: a row is always emitted for a resolved id; the
chunk sequence is empty when no full text is available, and a rendered-HTML
result is kept as a single unstructured chunk per §4.5). -/
def rowFor (pmcidOf : String → Option String) (metaOf : String → MetadataRecord)
    (r : RemoteFullText) (chunksOfXml : String → List Chunk) (pmid : String) : ResultRow :=
  match pmcidOf pmid with
  | none => { pmid := pmid, pmcid := none, meta := metaOf pmid, chunks := [] }
  | some pmcid =>
    match fetch_one r pmcid with
    | .structuredXmlContent xmlBody =>
      { pmid := pmid, pmcid := some pmcid, meta := metaOf pmid, chunks := chunksOfXml xmlBody }
    | .renderedHtmlText txt =>
      { pmid := pmid, pmcid := some pmcid, meta := metaOf pmid,
        chunks := [(txt, ctxOf [] ChunkRole.paragraph)] }
    | .unavailable _ =>
      { pmid := pmid, pmcid := some pmcid, meta := metaOf pmid, chunks := [] }

/-- Modelled from the spec: `fetch_pubmed_fulltexts` (spec §2, §3): one
ResultRow per resolved PrimaryId, joining the cross-reference, metadata and
full-text stages on the identifier. -/
def fetch_pubmed_fulltexts (pmids : List String) (pmcidOf : String → Option String)
    (metaOf : String → MetadataRecord) (r : RemoteFullText)
    (chunksOfXml : String → List Chunk) : List ResultRow :=
  pmids.map (rowFor pmcidOf metaOf r chunksOfXml)

/-- Modelled from the spec: start times of rate-limited calls after the first,
under an injectable clock (spec §4.1): a call requested at time `a` starts at
`max a lastPlus`, where `lastPlus` is the previous start plus the minimum
interval `T`. -/
def schedFrom (T : Nat) : Nat → List Nat → List Nat
  | _, [] => []
  | lastPlus, a :: as => max a lastPlus :: schedFrom T (max a lastPlus + T) as

/-- Modelled from the spec: start times of a sequence of calls through
`RateLimitedTransport` with minimum interval `T`, given the times at which the
calls are requested; the first call is never delayed. -/
def startTimes (T : Nat) : List Nat → List Nat
  | [] => []
  | a :: as => a :: schedFrom T (a + T) as

/-!
Theorems. Helper lemmas come first, then one theorem per claim (with a
witness where the theorem carries hypotheses).
-/

theorem replaceMerativ_of_not_substr :
    ∀ l : List Char, hasSubstr merativChars l = false → replaceMerativ l = l
  | [], _ => by rw [replaceMerativ]
  | c :: cs, h => by
    have h' : startsWithL merativChars (c :: cs) = false ∧ hasSubstr merativChars cs = false := by
      simpa [hasSubstr] using h
    rw [replaceMerativ, h'.1]
    simp only [Bool.false_eq_true, if_false]
    rw [replaceMerativ_of_not_substr cs h'.2]
termination_by l _ => l.length

theorem normaliseV2_eq_normaliseV1 (t : String)
    (h : hasSubstr merativChars t.toList = false) : normaliseV2 t = normaliseV1 t := by
  obtain ⟨d⟩ := t
  unfold normaliseV2 normaliseV1
  rw [replaceMerativ_of_not_substr _ h]
  rfl

/-- C10: for every `QueryOptions` whose looked-up design and source clauses
contain no occurrence of the substring `Merativ`, the first `build_query`
definition and the second (shadowing, exported) definition return identical
query strings; the two differ only in `_normalise`, where the second first
replaces `Merativ` by `Merative`. -/
theorem build_query_defs_agree (opts : QueryOptions)
    (hd : ∀ c ∈ lookupSyn opts.design_terms DESIGN_SYNONYMS,
      hasSubstr merativChars c.toList = false)
    (hs : ∀ c ∈ lookupSyn opts.data_sources DATA_SOURCE_SYNONYMS,
      hasSubstr merativChars c.toList = false) :
    build_query_first opts = build_query opts := by
  unfold build_query_first build_query
  rw [List.map_congr_left (fun c hc => normaliseV2_eq_normaliseV1 c (hd c hc)),
    List.map_congr_left (fun c hc => normaliseV2_eq_normaliseV1 c (hs c hc))]

theorem build_query_defs_agree_witness :
    build_query_first
        { data_sources := ["registry"], design_terms := ["prospective"],
          proximity_within := none, restrict_english := true, start_year := some 2010,
          end_year := none, exclude_clinical_trials := true } =
      build_query
        { data_sources := ["registry"], design_terms := ["prospective"],
          proximity_within := none, restrict_english := true, start_year := some 2010,
          end_year := none, exclude_clinical_trials := true } :=
  build_query_defs_agree _ (by decide) (by decide)

/-- C9: in the exported `build_query`, when both `start_year` and `end_year`
are unset (None or 0, both Python-falsy) the assembled query carries no
date-range filter; when exactly one is set, the missing bound defaults to 1800
for the start and 3000 for the end, producing the filter
`("start"[dp] : "end"[dp])`. -/
theorem build_query_date_filter (opts : QueryOptions) :
    (truthyYear opts.start_year = false → truthyYear opts.end_year = false →
      dateFilterList opts.start_year opts.end_year = [] ∧
      build_query opts = " AND ".intercalate
        (coreBlock ((lookupSyn opts.design_terms DESIGN_SYNONYMS).map normaliseV2)
            ((lookupSyn opts.data_sources DATA_SOURCE_SYNONYMS).map normaliseV2)
            opts.proximity_within ::
          (englishFilterList opts.restrict_english ++
            ctFilterList opts.exclude_clinical_trials))) ∧
    (∀ e : Nat, truthyYear opts.start_year = false → opts.end_year = some e → e ≠ 0 →
      dateFilterList opts.start_year opts.end_year =
        ["(\"1800\"[dp] : \"" ++ toString e ++ "\"[dp])"] ∧
      build_query opts = " AND ".intercalate
        (coreBlock ((lookupSyn opts.design_terms DESIGN_SYNONYMS).map normaliseV2)
            ((lookupSyn opts.data_sources DATA_SOURCE_SYNONYMS).map normaliseV2)
            opts.proximity_within ::
          (englishFilterList opts.restrict_english ++
            ["(\"1800\"[dp] : \"" ++ toString e ++ "\"[dp])"] ++
            ctFilterList opts.exclude_clinical_trials))) ∧
    (∀ s : Nat, opts.start_year = some s → s ≠ 0 → truthyYear opts.end_year = false →
      dateFilterList opts.start_year opts.end_year =
        ["(\"" ++ toString s ++ "\"[dp] : \"" ++ "3000" ++ "\"[dp])"] ∧
      build_query opts = " AND ".intercalate
        (coreBlock ((lookupSyn opts.design_terms DESIGN_SYNONYMS).map normaliseV2)
            ((lookupSyn opts.data_sources DATA_SOURCE_SYNONYMS).map normaliseV2)
            opts.proximity_within ::
          (englishFilterList opts.restrict_english ++
            ["(\"" ++ toString s ++ "\"[dp] : \"" ++ "3000" ++ "\"[dp])"] ++
            ctFilterList opts.exclude_clinical_trials))) := by
  refine ⟨?_, ?_, ?_⟩
  · intro h1 h2
    have hd : dateFilterList opts.start_year opts.end_year = [] := by
      simp [dateFilterList, h1, h2]
    refine ⟨hd, ?_⟩
    unfold build_query assembleQuery
    rw [hd, List.append_nil]
  · intro e h1 he hne
    have hd : dateFilterList opts.start_year opts.end_year =
        ["(\"1800\"[dp] : \"" ++ toString e ++ "\"[dp])"] := by
      have hstart0 : opts.start_year = none ∨ opts.start_year = some 0 := by
        cases hs0 : opts.start_year with
        | none => exact Or.inl rfl
        | some n =>
          rw [hs0] at h1
          simp [truthyYear] at h1
          exact Or.inr (by rw [h1])
      rcases hstart0 with h | h <;>
      · rw [h, he]
        simp only [dateFilterList, truthyYear, yearOrDefault]
        simp [hne]
        rfl
    refine ⟨hd, ?_⟩
    unfold build_query assembleQuery
    rw [hd]
  · intro s hsy hne h2
    have hd : dateFilterList opts.start_year opts.end_year =
        ["(\"" ++ toString s ++ "\"[dp] : \"" ++ "3000" ++ "\"[dp])"] := by
      have hend0 : opts.end_year = none ∨ opts.end_year = some 0 := by
        cases hs0 : opts.end_year with
        | none => exact Or.inl rfl
        | some n =>
          rw [hs0] at h2
          simp [truthyYear] at h2
          exact Or.inr (by rw [h2])
      rcases hend0 with h | h <;>
      · rw [h, hsy]
        simp only [dateFilterList, truthyYear, yearOrDefault]
        simp [hne]
        rfl
    refine ⟨hd, ?_⟩
    unfold build_query assembleQuery
    rw [hd]

theorem build_query_date_filter_witness :
    dateFilterList none (some 1999) = ["(\"1800\"[dp] : \"1999\"[dp])"] :=
  (build_query_date_filter
    { data_sources := [], design_terms := [], proximity_within := none,
      restrict_english := true, start_year := none, end_year := some 1999,
      exclude_clinical_trials := false }).2.1 1999 rfl rfl (by decide) |>.1

/-- C1: on the document
`<article><front><title-group><article-title>Main</article-title></title-group></front><body><sec><title>Intro</title><p>Intro text.</p></sec></body></article>`,
extraction with table cells enabled and minimum length 1 yields exactly the
chunks `Main` (title), `Intro` (title), `Intro text.` (paragraph), in order. -/
theorem jats_chunks_sample :
    get_jats_text_chunks sampleDocC1 1 true =
      .ok [("Main", ⟨none, none, ChunkRole.title⟩),
        ("Intro", ⟨none, none, ChunkRole.title⟩),
        ("Intro text.", ⟨some "Intro", none, ChunkRole.paragraph⟩)] := rfl

theorem jats_chunks_full_sample :
    get_jats_text_chunks sampleJats 1 true =
      .ok [("Main", ⟨none, none, ChunkRole.title⟩),
        ("Intro", ⟨none, none, ChunkRole.title⟩),
        ("Intro text.", ⟨some "Intro", none, ChunkRole.paragraph⟩),
        ("Results", ⟨none, none, ChunkRole.title⟩),
        ("Sub", ⟨some "Results", none, ChunkRole.title⟩),
        ("Sub text.", ⟨some "Sub", some "Results", ChunkRole.paragraph⟩),
        ("Cell1", ⟨none, none, ChunkRole.table_cell⟩)] := rfl

theorem walkList_append (minLen : Nat) (tables : Bool) (stack : List String)
    (xs ys : List Xml) :
    walkList minLen tables stack (xs ++ ys) =
      walkList minLen tables stack xs ++ walkList minLen tables stack ys := by
  induction xs with
  | nil => simp [walkList]
  | cons x xs ih => simp [walkList, ih]

theorem mem_walkList (minLen : Nat) (tables : Bool) (stack : List String)
    (x : Xml) (l : List Xml) (hx : x ∈ l) (c : Chunk)
    (hc : c ∈ walkNode minLen tables stack x) : c ∈ walkList minLen tables stack l := by
  induction l with
  | nil => cases hx
  | cons y ys ih =>
    simp only [walkList]
    rcases List.mem_cons.mp hx with h | h
    · subst h
      exact List.mem_append_left _ hc
    · exact List.mem_append_right _ (ih h)

/-- C2: whenever a section titled `Results` contains (among arbitrary other
children) a subsection titled `Sub` that contains a paragraph `Sub text.`,
the chunk emitted for `Sub text.` carries context section `Sub` and parent
section `Results`, whatever the enclosing stack and configuration (the
minimum length must not exceed the paragraph length). -/
theorem sub_section_context (minLen : Nat) (tables : Bool) (stack : List String)
    (xs ys zs ws : List Xml) (hm : minLen ≤ 9) :
    ("Sub text.", ⟨some "Sub", some "Results", ChunkRole.paragraph⟩) ∈
      walkNode minLen tables stack
        (.elem "sec" (.elem "title" [.text "Results"] ::
          (xs ++ (Xml.elem "sec" (.elem "title" [.text "Sub"] ::
            (zs ++ (Xml.elem "p" [Xml.text "Sub text."] :: ws)))) :: ys))) := by
  have htR : secTitle (Xml.elem "title" [Xml.text "Results"] ::
      (xs ++ (Xml.elem "sec" (.elem "title" [.text "Sub"] ::
        (zs ++ (Xml.elem "p" [Xml.text "Sub text."] :: ws)))) :: ys)) = some "Results" := rfl
  have htS : secTitle (Xml.elem "title" [Xml.text "Sub"] ::
      (zs ++ (Xml.elem "p" [Xml.text "Sub text."] :: ws))) = some "Sub" := rfl
  simp only [walkNode, htR]
  apply List.mem_cons_of_mem
  refine mem_walkList minLen tables ("Results" :: stack)
    (Xml.elem "sec" (Xml.elem "title" [Xml.text "Sub"] ::
      (zs ++ Xml.elem "p" [Xml.text "Sub text."] :: ws))) _ (by simp) _ ?_
  simp only [walkNode, htS]
  apply List.mem_cons_of_mem
  refine mem_walkList minLen tables ("Sub" :: "Results" :: stack)
    (Xml.elem "p" [Xml.text "Sub text."]) _ (by simp) _ ?_
  have hlen : (trimS (immediateText [Xml.text "Sub text."])).length = 9 := rfl
  simp only [walkNode, hlen]
  rw [if_pos hm]
  exact List.mem_singleton.mpr rfl

theorem sub_section_context_witness :
    ("Sub text.", (⟨some "Sub", some "Results", ChunkRole.paragraph⟩ : ChunkCtx)) ∈
      walkNode 1 true []
        (.elem "sec" (.elem "title" [.text "Results"] ::
          (([] : List Xml) ++ (Xml.elem "sec" (.elem "title" [.text "Sub"] ::
            (([] : List Xml) ++ (Xml.elem "p" [Xml.text "Sub text."] :: ([] : List Xml))))) ::
              ([] : List Xml)))) :=
  sub_section_context 1 true [] [] [] [] [] (by decide)

/-- C3: a document without a `<body>` container (for example a PubmedArticle
record) is rejected with `UnsupportedDocumentError` instead of being chunked. -/
theorem non_jats_rejected (doc : Xml) (min_len : Nat) (tables : Bool)
    (h : hasBodyElem doc = false) :
    get_jats_text_chunks doc min_len tables =
      .error (.unsupportedDocument "document has no body element") := by
  cases doc with
  | text s => rfl
  | elem tag children =>
    have hf : children.find? isBodyElem = none :=
      List.find?_eq_none.mpr (by simpa [hasBodyElem, List.any_eq_false] using h)
    simp [get_jats_text_chunks, bodyOf, hf]

theorem non_jats_rejected_witness :
    get_jats_text_chunks nonJatsDoc 1 false =
      .error (.unsupportedDocument "document has no body element") :=
  non_jats_rejected nonJatsDoc 1 false rfl

/-- C8: the chunk extractor is deterministic and order-stable: two runs on
the same document and configuration return identical chunk sequences. -/
theorem chunk_extraction_deterministic (docA docB : Xml) (mA mB : Nat) (tA tB : Bool)
    (hdoc : docA = docB) (hmin : mA = mB) (htab : tA = tB) :
    get_jats_text_chunks docA mA tA = get_jats_text_chunks docB mB tB := by
  rw [hdoc, hmin, htab]

theorem chunk_extraction_deterministic_witness :
    get_jats_text_chunks sampleJats 1 true = get_jats_text_chunks sampleJats 1 true :=
  chunk_extraction_deterministic sampleJats sampleJats 1 1 true true rfl rfl rfl

theorem batches_flatten (limit : Nat) (hl : 0 < limit) :
    ∀ l : List α, (batches limit l).flatten = l
  | [] => by simp [batches]
  | x :: xs => by
    simp only [batches, List.flatten_cons, List.cons_append]
    rw [batches_flatten limit hl (xs.drop (limit - 1)), List.take_append_drop]
termination_by l => l.length
decreasing_by
  simp [List.length_drop]
  omega

theorem batches_length (limit : Nat) (hl : 0 < limit) :
    ∀ l : List α, (batches limit l).length = (l.length + limit - 1) / limit
  | [] => by
    simp only [batches, List.length_nil, Nat.zero_add]
    rw [eq_comm]
    exact Nat.div_eq_of_lt (by omega)
  | x :: xs => by
    simp only [batches, List.length_cons]
    rw [batches_length limit hl (xs.drop (limit - 1)), List.length_drop]
    rcases Nat.le_total (limit - 1) xs.length with hle | hlt
    · have e1 : xs.length - (limit - 1) + limit - 1 = xs.length := by omega
      have e2 : xs.length + 1 + limit - 1 = xs.length + limit := by omega
      rw [e1, e2, Nat.add_div_right _ hl]
    · have e1 : xs.length - (limit - 1) + limit - 1 = limit - 1 := by omega
      have e2 : xs.length + 1 + limit - 1 = xs.length + limit := by omega
      rw [e1, e2, Nat.add_div_right _ hl, Nat.div_eq_of_lt (by omega : limit - 1 < limit),
        Nat.div_eq_of_lt (by omega : xs.length < limit)]
termination_by l => l.length
decreasing_by
  simp [List.length_drop]
  omega

/-- C4: for a positive per-call batch limit, `cross_reference` and the
metadata fetch issue exactly `ceil(n / limit)` remote calls (one per batch),
the concatenation of the batches is exactly the input id list (no id
duplicated, none lost across batch boundaries), and the merged mapping is
exactly the union, in order, of the per-batch partial maps. -/
theorem cross_reference_batching (limit : Nat)
    (remote : List String → List (String × String))
    (remoteMeta : List String → List (String × MetadataRecord))
    (ids : List String) (hl : 0 < limit) :
    (batches limit ids).length = (ids.length + limit - 1) / limit ∧
    (batches limit ids).flatten = ids ∧
    cross_reference limit remote ids = ((batches limit ids).map remote).flatten ∧
    fetch_metadata limit remoteMeta ids = ((batches limit ids).map remoteMeta).flatten :=
  ⟨batches_length limit hl ids, batches_flatten limit hl ids, rfl, rfl⟩

theorem cross_reference_batching_witness :
    (batches 2 ["a", "b", "c", "d", "e"]).length = (5 + 2 - 1) / 2 ∧
    (batches 2 ["a", "b", "c", "d", "e"]).flatten = ["a", "b", "c", "d", "e"] := by
  have h := cross_reference_batching 2 (fun _ => []) (fun _ => [])
    ["a", "b", "c", "d", "e"] (by decide)
  exact ⟨h.1, h.2.1⟩

theorem fetch_many_fst (r : RemoteFullText) (ids : List String) :
    (fetch_many r ids).map Prod.fst = ids := by
  induction ids with
  | nil => rfl
  | cons i is ih => simp only [fetch_many, List.map_cons] at ih ⊢; rw [ih]

theorem fetch_many_count_unavailable (r : RemoteFullText) (ids : List String) :
    ((fetch_many r ids).filter (fun pr => (pr.2).isUnavailable)).length =
      (ids.filter (fun i => (fetch_one r i).isUnavailable)).length := by
  induction ids with
  | nil => rfl
  | cons i is ih =>
    by_cases h : (fetch_one r i).isUnavailable = true
    · simp [fetch_many, List.filter_cons, h] at ih ⊢; exact ih
    · simp [fetch_many, List.filter_cons, h] at ih ⊢; exact ih

theorem fetch_many_count_content (r : RemoteFullText) (ids : List String) :
    ((fetch_many r ids).filter (fun pr => (pr.2).isContent)).length =
      (ids.filter (fun i => (fetch_one r i).isContent)).length := by
  induction ids with
  | nil => rfl
  | cons i is ih =>
    by_cases h : (fetch_one r i).isContent = true
    · simp [fetch_many, List.filter_cons, h] at ih ⊢; exact ih
    · simp [fetch_many, List.filter_cons, h] at ih ⊢; exact ih

theorem count_outcome_partition (r : RemoteFullText) (ids : List String) :
    (ids.filter (fun i => (fetch_one r i).isUnavailable)).length +
      (ids.filter (fun i => (fetch_one r i).isContent)).length = ids.length := by
  induction ids with
  | nil => rfl
  | cons i is ih =>
    cases hc : fetch_one r i with
    | structuredXmlContent b =>
      have h1 : (fetch_one r i).isUnavailable = false := by rw [hc]; rfl
      have h2 : (fetch_one r i).isContent = true := by rw [hc]; rfl
      simp [List.filter_cons, h1, h2]
      omega
    | renderedHtmlText b =>
      have h1 : (fetch_one r i).isUnavailable = false := by rw [hc]; rfl
      have h2 : (fetch_one r i).isContent = true := by rw [hc]; rfl
      simp [List.filter_cons, h1, h2]
      omega
    | unavailable v =>
      have h1 : (fetch_one r i).isUnavailable = true := by rw [hc]; rfl
      have h2 : (fetch_one r i).isContent = false := by rw [hc]; rfl
      simp [List.filter_cons, h1, h2]
      omega

/-- C5: `fetch_one` is total — every id yields either an Unavailable outcome
or a content outcome, never an exception — and `fetch_many` returns exactly
one outcome per attempted id: as many Unavailable outcomes as there are
failing ids and as many content outcomes as there are succeeding ids, the two
counts summing to the batch size. -/
theorem fetch_many_outcomes (r : RemoteFullText) (ids : List String) :
    (∀ sid : String,
      (fetch_one r sid).isUnavailable = true ∨ (fetch_one r sid).isContent = true) ∧
    (fetch_many r ids).map Prod.fst = ids ∧
    ((fetch_many r ids).filter (fun pr => (pr.2).isUnavailable)).length =
      (ids.filter (fun i => (fetch_one r i).isUnavailable)).length ∧
    ((fetch_many r ids).filter (fun pr => (pr.2).isContent)).length =
      (ids.filter (fun i => (fetch_one r i).isContent)).length ∧
    (ids.filter (fun i => (fetch_one r i).isUnavailable)).length +
      (ids.filter (fun i => (fetch_one r i).isContent)).length = ids.length := by
  refine ⟨?_, fetch_many_fst r ids, fetch_many_count_unavailable r ids,
    fetch_many_count_content r ids, count_outcome_partition r ids⟩
  intro sid
  cases h : fetch_one r sid with
  | structuredXmlContent b => right; rfl
  | renderedHtmlText b => right; rfl
  | unavailable v => left; rfl

theorem rowFor_fields (pmcidOf : String → Option String) (metaOf : String → MetadataRecord)
    (r : RemoteFullText) (chunksOfXml : String → List Chunk) (p : String) :
    (rowFor pmcidOf metaOf r chunksOfXml p).pmid = p ∧
    (rowFor pmcidOf metaOf r chunksOfXml p).meta = metaOf p ∧
    (rowFor pmcidOf metaOf r chunksOfXml p).pmcid = pmcidOf p ∧
    ((rowFor pmcidOf metaOf r chunksOfXml p).pmcid = none →
      (rowFor pmcidOf metaOf r chunksOfXml p).chunks = []) := by
  unfold rowFor
  cases hc : pmcidOf p with
  | none => simp
  | some c => cases ho : fetch_one r c <;> simp [ho]

/-- C6: every row `fetch_pubmed_fulltexts` emits has the ResultRow shape —
its PrimaryId is exactly the resolved id (the emitted pmids are the input
list), it carries the metadata record for that id, its optional SecondaryId
is exactly the cross-referenced one, and when no SecondaryId exists the
chunk sequence is empty. -/
theorem fetch_pubmed_fulltexts_rows (pmids : List String)
    (pmcidOf : String → Option String) (metaOf : String → MetadataRecord)
    (r : RemoteFullText) (chunksOfXml : String → List Chunk) :
    (fetch_pubmed_fulltexts pmids pmcidOf metaOf r chunksOfXml).map ResultRow.pmid = pmids ∧
    ∀ row ∈ fetch_pubmed_fulltexts pmids pmcidOf metaOf r chunksOfXml,
      row.meta = metaOf row.pmid ∧ row.pmcid = pmcidOf row.pmid ∧
        (row.pmcid = none → row.chunks = []) := by
  constructor
  · unfold fetch_pubmed_fulltexts
    rw [List.map_map]
    have hid : ResultRow.pmid ∘ rowFor pmcidOf metaOf r chunksOfXml = id := by
      funext p
      exact (rowFor_fields pmcidOf metaOf r chunksOfXml p).1
    rw [hid, List.map_id]
  · intro row hrow
    obtain ⟨p, hp, hrw⟩ :=
      List.mem_map.mp (by simpa [fetch_pubmed_fulltexts] using hrow)
    subst hrw
    have h := rowFor_fields pmcidOf metaOf r chunksOfXml p
    rw [h.1]
    exact ⟨h.2.1, h.2.2.1, h.2.2.2⟩

theorem fetch_pubmed_fulltexts_rows_witness :
    (fetch_pubmed_fulltexts ["1", "2"]
        (fun p => if p == "1" then some "PMC10" else none)
        (fun p => ⟨p, "T", none, some 2025, some "A", ["X"]⟩)
        ⟨fun _ => .fetchError, fun _ => .fetchError, fun _ => false, fun s => s⟩
        (fun _ => [])).map ResultRow.pmid = ["1", "2"] ∧
    ∀ row ∈ fetch_pubmed_fulltexts ["1", "2"]
        (fun p => if p == "1" then some "PMC10" else none)
        (fun p => ⟨p, "T", none, some 2025, some "A", ["X"]⟩)
        ⟨fun _ => .fetchError, fun _ => .fetchError, fun _ => false, fun s => s⟩
        (fun _ => []),
      row.meta = (fun p => (⟨p, "T", none, some 2025, some "A", ["X"]⟩ : MetadataRecord)) row.pmid ∧
        row.pmcid = (fun p => if p == "1" then some "PMC10" else none) row.pmid ∧
        (row.pmcid = none → row.chunks = []) :=
  fetch_pubmed_fulltexts_rows ["1", "2"]
    (fun p => if p == "1" then some "PMC10" else none)
    (fun p => ⟨p, "T", none, some 2025, some "A", ["X"]⟩)
    ⟨fun _ => .fetchError, fun _ => .fetchError, fun _ => false, fun s => s⟩
    (fun _ => [])

theorem schedFrom_gap (T : Nat) :
    ∀ (as : List Nat) (lastPlus i : Nat),
      i + 1 < (schedFrom T lastPlus as).length →
      (schedFrom T lastPlus as).getD i 0 + T ≤ (schedFrom T lastPlus as).getD (i + 1) 0
  | [], _, _, h => by simp [schedFrom] at h
  | a :: as, lastPlus, 0, h => by
    cases as with
    | nil => simp [schedFrom] at h
    | cons b bs =>
      simp only [schedFrom, List.getD_cons_zero, List.getD_cons_succ]
      exact le_max_right _ _
  | a :: as, lastPlus, i + 1, h => by
    simp only [schedFrom, List.length_cons] at h
    simp only [schedFrom, List.getD_cons_succ]
    exact schedFrom_gap T as (max a lastPlus + T) i (by omega)

/-- C7: across any sequence of calls through the rate-limited transport with
minimum interval `T`, under the injectable clock every two consecutive call
start times are at least `T` apart. -/
theorem rate_limited_gap (T : Nat) (arrivals : List Nat) (i : Nat)
    (h : i + 1 < (startTimes T arrivals).length) :
    (startTimes T arrivals).getD i 0 + T ≤ (startTimes T arrivals).getD (i + 1) 0 := by
  cases arrivals with
  | nil => simp [startTimes] at h
  | cons a as =>
    cases i with
    | zero =>
      cases as with
      | nil => simp [startTimes, schedFrom] at h
      | cons b bs =>
        simp only [startTimes, schedFrom, List.getD_cons_zero, List.getD_cons_succ]
        exact le_max_right _ _
    | succ j =>
      simp only [startTimes, List.length_cons] at h
      simp only [startTimes, List.getD_cons_succ]
      exact schedFrom_gap T as (a + T) j (by omega)

theorem rate_limited_gap_witness :
    (startTimes 5 [0, 0, 0]).getD 0 0 + 5 ≤ (startTimes 5 [0, 0, 0]).getD 1 0 :=
  rate_limited_gap 5 [0, 0, 0] 0 (by decide)
